import Mathlib

/-!
A shallow embedding of the aardvark-dns sources, together with theorems
settling the specification claims against that embedding.

Rust strings are modelled as Lean `String`; the handful of `std` string
operations the sources use (`to_lowercase`, `ends_with`, `truncate`,
`split`, `split_whitespace`, `split_once`, `trim_end_matches`,
`matches(c).count`) are given explicit models below, operating on the
underlying character list.  Rust `HashMap` is modelled as an association
list; the sources never rely on hash iteration order for any property
stated here.  Calls into `std`'s address parser (`IpAddr::from_str` and
friends), `trust_dns` name parsing, and the OS interface table
(`if_nametoindex`) are treated as environment parameters: the theorems
quantify over them.
-/

namespace Aardvark

/-- Model of Rust `str::to_lowercase` (character-wise lowercasing). -/
def strToLower (s : String) : String :=
  ⟨s.data.map Char.toLower⟩

/-- Model of Rust `str::ends_with` for a string pattern. -/
def strEndsWith (s pat : String) : Bool :=
  pat.data.isSuffixOf s.data

/-- Model of Rust `String::truncate (s.len() - n)`: drop the last `n` characters. -/
def strDropRight (s : String) (n : Nat) : String :=
  ⟨s.data.take (s.data.length - n)⟩

/-- Model of Rust `str::len` (character count stands in for byte count). -/
def strLen (s : String) : Nat :=
  s.data.length

/-- Model of Rust `str::contains` for a string pattern. -/
def strContains (s pat : String) : Bool :=
  (s.data.tails).any (fun t => pat.data.isPrefixOf t)

/-- Model of Rust `s.matches(c).count()`: number of occurrences of a character. -/
def countChar (s : String) (c : Char) : Nat :=
  s.data.count c

/-- Splitting a character list at every occurrence of a separator satisfying
`p`; like Rust `str::split`, the result keeps empty fields and is never the
empty list. -/
def splitPredList (p : Char → Bool) : List Char → List (List Char)
  | [] => [[]]
  | c :: cs =>
    if p c then [] :: splitPredList p cs
    else
      match splitPredList p cs with
      | [] => [[c]]
      | y :: ys => (c :: y) :: ys

/-- Model of Rust `str::split(c)`. -/
def strSplitChar (s : String) (c : Char) : List String :=
  (splitPredList (fun x => x == c) s.data).map (⟨·⟩)

/-- Model of Rust `str::split_whitespace`: fields between whitespace runs,
with empty fields removed. -/
def strSplitWhitespace (s : String) : List String :=
  ((splitPredList Char.isWhitespace s.data).map (fun l => (⟨l⟩ : String))).filter (· ≠ "")

/-- Splitting off everything up to the first character satisfying `p`;
model of Rust `str::split_once` with a character-class pattern. -/
def splitOnceList (p : Char → Bool) : List Char → Option (List Char × List Char)
  | [] => none
  | c :: cs =>
    if p c then some ([], cs)
    else (splitOnceList p cs).map (fun ab => (c :: ab.1, ab.2))

/-- Model of Rust `str::split_once('%')`. -/
def strSplitOncePercent (s : String) : Option (String × String) :=
  (splitOnceList (fun c => c == '%') s.data).map (fun ab => (⟨ab.1⟩, ⟨ab.2⟩))

/-- Model of `line.split_once(['#', ';'])` as used on resolver-file lines:
the text before the first `#` or `;`, or the whole line when neither occurs. -/
def beforeCommentMark (s : String) : String :=
  match splitOnceList (fun c => c == '#' || c == ';') s.data with
  | some ab => ⟨ab.1⟩
  | none => s

/-- Model of Rust `str::strip_suffix` in the case the suffix is known to be
present: drop the suffix's length from the right. -/
def strDropSuffix (s pat : String) : String :=
  strDropRight s (strLen pat)

/-- Fuel-driven worker for `trimEndMatches`; the fuel is the string length,
which bounds the number of strips since each strip removes at least one
character of a non-empty pattern. -/
def trimEndMatchesGo (pat : String) : Nat → String → String
  | 0, s => s
  | fuel + 1, s =>
    if strLen pat ≠ 0 ∧ strEndsWith s pat then
      trimEndMatchesGo pat fuel (strDropSuffix s pat)
    else s

/-- Model of Rust `str::trim_end_matches` for a string pattern: repeatedly
strip the suffix while it is present. -/
def trimEndMatches (s pat : String) : String :=
  trimEndMatchesGo pat (strLen s) s

/-- IP addresses; the numeric payloads stand for the 32-bit and 128-bit
address values, whose internal structure never matters to the claims. -/
inductive IpAddr where
  | v4 (a : Nat)
  | v6 (a : Nat)
deriving DecidableEq, Repr

/-- Association-list lookup; model of `HashMap::get`. -/
def alGet {α β : Type} [DecidableEq α] (m : List (α × β)) (k : α) : Option β :=
  (m.find? (fun kv => kv.1 = k)).map (·.2)

/-- Association-list insert; model of `HashMap::insert` (replace or add). -/
def alInsert {α β : Type} [DecidableEq α] (m : List (α × β)) (k : α) (v : β) : List (α × β) :=
  if (m.find? (fun kv => kv.1 = k)).isSome then
    m.map (fun kv => if kv.1 = k then (k, v) else kv)
  else m ++ [(k, v)]

/-- Model of `HashMap::entry(k).or_insert_with(default)` followed by an
in-place mutation `f` of the entry's value. -/
def alAdjust {α β : Type} [DecidableEq α] (m : List (α × β)) (k : α) (d : β) (f : β → β) :
    List (α × β) :=
  if (m.find? (fun kv => kv.1 = k)).isSome then
    m.map (fun kv => if kv.1 = k then (k, f kv.2) else kv)
  else m ++ [(k, f d)]

/-- The in-memory backing store of the DNS server (`src/backend/mod.rs`,
`struct DNSBackend`). -/
structure DNSBackend where
  ip_mappings : List (IpAddr × List String)
  name_mappings : List (String × List (String × List IpAddr))
  reverse_mappings : List (String × List (IpAddr × List String))
  ctr_dns_server : List (IpAddr × Option (List IpAddr))
  network_dns_server : List (String × List IpAddr)
  network_is_internal : List (String × Bool)
  search_domain : String
deriving DecidableEq, Repr

/-- `DNSBackend::new` (`src/backend/mod.rs`): appends a trailing dot to the
search domain when one is missing. -/
def DNSBackend.new (containers : List (IpAddr × List String))
    (networks : List (String × List (String × List IpAddr)))
    (reverse : List (String × List (IpAddr × List String)))
    (ctr_dns_server : List (IpAddr × Option (List IpAddr)))
    (network_dns_server : List (String × List IpAddr))
    (network_is_internal : List (String × Bool))
    (search_domain : String) : DNSBackend :=
  let search_domain :=
    match search_domain.data.reverse.head? with
    | some c => if c ≠ '.' then search_domain ++ "." else search_domain
    | none => search_domain
  { ip_mappings := containers
    name_mappings := networks
    reverse_mappings := reverse
    ctr_dns_server
    network_dns_server
    network_is_internal
    search_domain }

/-- The search phase of `DNSBackend::lookup`, after name normalization:
walk the requester's networks (or the caller's fallback network) and
accumulate every address found under the name. -/
def DNSBackend.lookup_name (b : DNSBackend) (requester : IpAddr) (network_name name : String) :
    Option (List IpAddr) :=
  let nets :=
    match alGet b.ip_mappings requester with
    | some n => n
    | none => [network_name]
  let results :=
    nets.foldl
      (fun results net =>
        match alGet b.name_mappings net with
        | none => results
        | some net_names =>
          match alGet net_names name with
          | some addrs => results ++ addrs
          | none => results)
      []
  if results.isEmpty then none else some results

/-- `DNSBackend::lookup` (`src/backend/mod.rs`): lowercase the entry, strip a
trailing occurrence of the search domain, strip a single trailing dot, then
search the requester's networks. -/
def DNSBackend.lookup (b : DNSBackend) (requester : IpAddr) (network_name entry : String) :
    Option (List IpAddr) :=
  let name := strToLower entry
  let name :=
    if strEndsWith name b.search_domain then strDropRight name (strLen b.search_domain) else name
  let name := if strEndsWith name "." then strDropRight name 1 else name
  b.lookup_name requester network_name name

/-- `DNSBackend::get_network_scoped_resolvers` (`src/backend/mod.rs`). -/
def DNSBackend.get_network_scoped_resolvers (b : DNSBackend) (requester : IpAddr) :
    Option (List IpAddr) :=
  match alGet b.ip_mappings requester with
  | some nets =>
    some (nets.foldl
      (fun results net =>
        match alGet b.network_dns_server net with
        | some resolvers => results ++ resolvers
        | none => results)
      [])
  | none => none

/-- `DNSBackend::ctr_is_internal` (`src/backend/mod.rs`): true iff the
requester is known and no network it belongs to is marked non-internal;
an unknown requester is treated as external. -/
def DNSBackend.ctr_is_internal (b : DNSBackend) (requester : IpAddr) : Bool :=
  match alGet b.ip_mappings requester with
  | some nets =>
    nets.all (fun net =>
      match alGet b.network_is_internal net with
      | some internal => internal
      | none => true)
  | none => false

/-- `DNSBackend::reverse_lookup` (`src/backend/mod.rs`): the first name list
found by consulting the per-network reverse tables in the order of the
requester's network list. -/
def DNSBackend.reverse_lookup (b : DNSBackend) (requester lookup_ip : IpAddr) :
    Option (List String) :=
  match alGet b.ip_mappings requester with
  | none => none
  | some nets =>
    nets.findSome? (fun net =>
      match alGet b.reverse_mappings net with
      | some ips => alGet ips lookup_ip
      | none => none)

/-- DNS record types the engine distinguishes (`trust_dns_proto::rr::RecordType`;
every type other than A, AAAA and PTR takes the same path in the engine). -/
inductive RecordType where
  | A
  | AAAA
  | PTR
  | OTHER
deriving DecidableEq, Repr

/-- `trust_dns_proto::rr::DNSClass`; the engine only ever writes IN. -/
inductive DNSClass where
  | IN
deriving DecidableEq, Repr

/-- Record payloads the engine synthesizes (`trust_dns_proto::rr::RData`). -/
inductive RData where
  | a (ip : Nat)
  | aaaa (ip : Nat)
  | ptr (target : String)
deriving DecidableEq, Repr

/-- A resource record (`trust_dns_proto::rr::Record`); `Record::new()` has
the root name, TTL 0, record type A, class IN and no data. -/
structure DnsRecord where
  name : String
  ttl : Nat
  rr_type : RecordType
  dns_class : DNSClass
  rdata : Option RData
deriving DecidableEq, Repr

inductive MessageType where
  | Query
  | Response
deriving DecidableEq, Repr

inductive ResponseCode where
  | NoError
  | NXDomain
deriving DecidableEq, Repr

/-- The slice of `trust_dns_proto::op::Message` the engine reads or writes. -/
structure Message where
  id : Nat
  message_type : MessageType
  recursion_desired : Bool
  recursion_available : Bool
  response_code : ResponseCode
  answers : List DnsRecord
deriving DecidableEq, Repr

/-- `reply` (`src/dns/coredns.rs`): the message actually serialized and sent
for `msg` — message type forced to Response, and recursion-available set
when the message has recursion-desired set but recursion-available clear. -/
def reply (msg : Message) : Message :=
  let msg_mut := { msg with message_type := MessageType.Response }
  if msg.recursion_desired && !msg.recursion_available then
    { msg_mut with recursion_available := true }
  else msg_mut

/-- `forward_dns_req` (`src/dns/coredns.rs`): the upstream exchange is the
environment; on a response the transaction id is rewritten to the original
request's id, on no response or error nothing is produced. -/
def forward_dns_req (message : Message) (upstream_response : Option Message) : Option Message :=
  match upstream_response with
  | some response => some { response with id := message.id }
  | none => none

/-- The reply the forwarding task emits for the first upstream response
(`src/dns/coredns.rs`, the `tokio::spawn` loop over nameservers: the first
resolver that yields a response is replied and the loop breaks). -/
def forward_task_emissions (req : Message) : List (Option Message) → List Message
  | [] => []
  | upstream :: rest =>
    match forward_dns_req req upstream with
    | some resp => [reply resp]
    | none => forward_task_emissions req rest

/-- Environment for the engine: `trust_dns` name parsing and `std` address
parsing, which the sources call out to. -/
structure NameParseEnv where
  from_ascii : String → Option String
  from_str_relaxed : String → Option String
  parse_ip : String → Option IpAddr

/-- The `split_off(4)` loop of the PTR branch (`src/dns/coredns.rs`): chunk
the string into groups of four characters, fuelled by the length. -/
def chunk4Go : Nat → List Char → List (List Char)
  | 0, l => if l.isEmpty then [] else [l]
  | fuel + 1, l =>
    if l.length > 4 then l.take 4 :: chunk4Go fuel (l.drop 4)
    else if l.isEmpty then [] else [l]

/-- Reinsert `:` every four characters into a dot-free IPv6 nibble string. -/
def insertColons (s : String) : String :=
  String.intercalate ":" ((chunk4Go (strLen s) s.data).map (⟨·⟩))

/-- The string the PTR branch of `register_port` reconstructs from the query
name before parsing it as an IP (`src/dns/coredns.rs`). -/
def ptr_lookup_ip_string (name : String) : String :=
  if strContains name ".in-addr.arpa." then
    String.intercalate "." ((strSplitChar (trimEndMatches name ".in-addr.arpa.") '.').reverse)
  else if strContains name ".ip6.arpa." then
    insertColons (String.join ((strSplitChar (trimEndMatches name ".ip6.arpa.") '.').reverse))
  else "not an ip"

/-- The PTR answer records added for a successful reverse lookup
(`src/dns/coredns.rs`): one record per name whose absolute form parses,
with the `Record::new()` defaults (root owner name) apart from TTL 86400,
type PTR, class IN and the PTR target. -/
def ptr_answers (env : NameParseEnv) (reverse : List String) : List DnsRecord :=
  reverse.filterMap (fun entry =>
    (env.from_ascii (entry ++ ".")).map (fun answer =>
      { name := ""
        ttl := 86400
        rr_type := RecordType.PTR
        dns_class := DNSClass.IN
        rdata := some (RData.ptr answer) }))

/-- The search-domain stripping workaround applied to the query name inside
the fallback scan of `register_port` (`src/dns/coredns.rs`). -/
def fallback_request_name (filter_search_domain name : String) : String :=
  let filter_domain_ndots_complete := filter_search_domain ++ "."
  let request_name :=
    if strEndsWith name filter_search_domain then
      strDropSuffix name filter_search_domain ++ "."
    else name
  if strEndsWith request_name filter_domain_ndots_complete then
    strDropSuffix request_name filter_domain_ndots_complete ++ "."
  else request_name

/-- The fallback scan of `register_port` over the listener's own network
(`src/dns/coredns.rs`): compare every key of that network's name table, as a
fully-qualified name, against the stripped query name; the last matching
entry wins, and no match leaves the resolved list empty. -/
def fallback_resolve (b : DNSBackend) (network_name filter_search_domain name : String) :
    List IpAddr :=
  match alGet b.name_mappings network_name with
  | none => []
  | some container_mappings =>
    container_mappings.foldl
      (fun resolved kv =>
        if kv.1 ++ "." == fallback_request_name filter_search_domain name then kv.2
        else resolved)
      []

/-- The A/AAAA answers added to the request clone before a local reply
(`src/dns/coredns.rs`): one record per address of the matching family, TTL
86400, class IN, owner name the parsed record name; other query types add
nothing (the reply is still sent). -/
def add_answers (req : Message) (record_type : RecordType) (record_name : String)
    (resolved_ip_list : List IpAddr) : Message :=
  match record_type with
  | RecordType.A =>
    { req with
      answers := req.answers ++ resolved_ip_list.filterMap (fun addr =>
        match addr with
        | IpAddr.v4 ipv4 =>
          some { name := record_name
                 ttl := 86400
                 rr_type := RecordType.A
                 dns_class := DNSClass.IN
                 rdata := some (RData.a ipv4) }
        | IpAddr.v6 _ => none) }
  | RecordType.AAAA =>
    { req with
      answers := req.answers ++ resolved_ip_list.filterMap (fun addr =>
        match addr with
        | IpAddr.v6 ipv6 =>
          some { name := record_name
                 ttl := 86400
                 rr_type := RecordType.AAAA
                 dns_class := DNSClass.IN
                 rdata := some (RData.aaaa ipv6) }
        | IpAddr.v4 _ => none) }
  | _ => req

/-- The nameserver list a forwarded query will use (`src/dns/coredns.rs`,
start of the message loop): the container-scoped resolvers when an entry is
present and set, else the network-scoped resolvers; a non-empty scoped list
overrides the host's resolvers. -/
def query_nameservers (b : DNSBackend) (host_nameservers : List IpAddr) (src_ip : IpAddr) :
    List IpAddr :=
  let nameservers_scoped :=
    match alGet b.ctr_dns_server src_ip with
    | some (some dns_servers) => dns_servers
    | _ =>
      match b.get_network_scoped_resolvers src_ip with
      | some network_dns_servers => network_dns_servers
      | none => []
  if nameservers_scoped.isEmpty then host_nameservers else nameservers_scoped

/-- What the engine does with a message besides replying: forward it to a
list of nameservers on a spawned task. -/
inductive EngineAction where
  | reply (msg : Message)
  | forward (req : Message) (nameservers : List IpAddr)
deriving DecidableEq, Repr

/-- The PTR early path of `register_port` (`src/dns/coredns.rs`): when the
query is a PTR whose reconstructed address parses and reverse-resolves, a
reply carrying the PTR answers is sent at once; in every other case this
path emits nothing and processing falls through. -/
def ptr_actions (env : NameParseEnv) (b : DNSBackend) (src_ip : IpAddr) (name : String)
    (record_type : RecordType) (req : Message) : List EngineAction :=
  if record_type = RecordType.PTR then
    match env.parse_ip (ptr_lookup_ip_string name) with
    | some lookup_ip =>
      match b.reverse_lookup src_ip lookup_ip with
      | some reverse =>
        [EngineAction.reply (reply { req with answers := req.answers ++ ptr_answers env reverse })]
      | none => []
    | none => []
  else []

/-- The resolution-and-forwarding path of `register_port`
(`src/dns/coredns.rs`, after the PTR branch).  `backend_lookup` stands for
the `DNSBackend::lookup` overload this engine revision calls, whose body is
not part of the sources at hand; anything other than a success means the
fallback scan runs.  When the record name fails to parse the iteration is
abandoned; with a non-empty resolved list a local answer is sent; otherwise
the request is answered NXDOMAIN when `no_proxy` is set, when the name ends
with the filter search domain (with or without a second trailing dot), or
when the name contains exactly one dot — and is forwarded in every other
case. -/
def resolved_ip_list_of (b : DNSBackend) (network_name filter_search_domain name : String)
    (backend_lookup : Option (List IpAddr)) : List IpAddr :=
  match backend_lookup with
  | some ip_vec => ip_vec
  | none => fallback_resolve b network_name filter_search_domain name

/-- The branch of `register_port` that, from the resolved list, sends a
local answer, an NXDOMAIN, or forwards; see `resolved_ip_list_of` for the
resolved list itself. -/
def main_resolution_actions (env : NameParseEnv) (b : DNSBackend)
    (network_name filter_search_domain : String) (no_proxy : Bool)
    (host_nameservers : List IpAddr) (src_ip : IpAddr) (name : String)
    (record_type : RecordType) (req : Message) (backend_lookup : Option (List IpAddr)) :
    List EngineAction :=
  let resolved_ip_list :=
    resolved_ip_list_of b network_name filter_search_domain name backend_lookup
  match env.from_str_relaxed name with
  | none => []
  | some record_name =>
    if !resolved_ip_list.isEmpty then
      [EngineAction.reply (reply (add_answers req record_type record_name resolved_ip_list))]
    else
      let filter_search_domain_ndots := filter_search_domain ++ "."
      if no_proxy || strEndsWith name filter_search_domain
          || strEndsWith name filter_search_domain_ndots
          || countChar name '.' == 1 then
        [EngineAction.reply (reply { req with response_code := ResponseCode.NXDomain })]
      else
        [EngineAction.forward req (query_nameservers b host_nameservers src_ip)]

/-- One iteration of the message loop of `register_port`
(`src/dns/coredns.rs`) for a successfully parsed query: the PTR early path
followed by the resolution-and-forwarding path. -/
def handle_message (env : NameParseEnv) (b : DNSBackend)
    (network_name filter_search_domain : String) (no_proxy : Bool)
    (host_nameservers : List IpAddr) (src_ip : IpAddr) (name : String)
    (record_type : RecordType) (req : Message) (backend_lookup : Option (List IpAddr)) :
    List EngineAction :=
  ptr_actions env b src_ip name record_type req ++
    main_resolution_actions env b network_name filter_search_domain no_proxy host_nameservers
      src_ip name record_type req backend_lookup

/-- The error kinds of `src/error.rs` that the embedded code paths can
produce; for IO errors only the `NotFound` distinction is ever consulted. -/
inductive AardvarkError where
  | message (s : String)
  | ioError (not_found : Bool)
deriving DecidableEq, Repr

/-- Modelled from the spec: `src/config/constants.rs` is not among the
sources; §6 reserves the PID file name `aardvark.pid` inside the config
directory. -/
def AARDVARK_PID_FILE : String := "aardvark.pid"

/-- Modelled from the spec: `src/config/constants.rs` is not among the
sources; §4.1 and §6 reserve the file-name suffix `%int` to mark a network
internal. -/
def INTERNAL_SUFFIX : String := "%int"

/-- A single entry in a config file (`src/config/mod.rs`, `struct CtrEntry`);
the `Nat` payloads are v4 and v6 address values. -/
structure CtrEntry where
  id : String
  v4 : Option (List Nat)
  v6 : Option (List Nat)
  aliases : List String
  dns_servers : Option (List IpAddr)
deriving DecidableEq, Repr

/-- `struct ParsedNetworkConfig` (`src/config/mod.rs`). -/
structure ParsedNetworkConfig where
  network_bind_ip : List IpAddr
  container_entry : List CtrEntry
  network_dnsservers : List IpAddr
deriving DecidableEq, Repr

/-- Environment for the config parser: the `std` address parsers
(`IpAddr::from_str`, `Ipv4Addr::from_str`, `Ipv6Addr::from_str`). -/
structure ConfigEnv where
  parse_ip : String → Option IpAddr
  parse_ip4 : String → Option Nat
  parse_ip6 : String → Option Nat

/-- Rust `.split(',').map(|i| i.parse()).collect::<Result<_, _>>()`: parse
every field, aborting at the first failure. -/
def collectParsed {α : Type} (p : String → Option α) (err : String → String) :
    List String → Except AardvarkError (List α)
  | [] => Except.ok []
  | x :: xs =>
    match p x with
    | none => Except.error (AardvarkError.message (err x))
    | some v => (collectParsed p err xs).map (v :: ·)

/-- The line loop of `parse_config` (`src/config/mod.rs`): skip empty lines;
the first non-empty line carries comma-separated bind IPs and optionally
comma-separated network-scoped DNS servers; each further line is a container
entry with at least four space-delimited fields. -/
def parse_config_lines (env : ConfigEnv) :
    List String → Bool → List IpAddr → List IpAddr → List CtrEntry →
    Except AardvarkError (List IpAddr × List IpAddr × List CtrEntry)
  | [], _, bind_addrs, network_dns_servers, ctrs =>
    Except.ok (bind_addrs, network_dns_servers, ctrs)
  | line :: rest, is_first, bind_addrs, network_dns_servers, ctrs =>
    if line = "" then parse_config_lines env rest is_first bind_addrs network_dns_servers ctrs
    else if is_first then
      match strSplitChar line ' ' with
      | [] => Except.error (AardvarkError.message "invalid network configuration file")
      | first_col :: rest_cols =>
        match collectParsed env.parse_ip (fun ip => "error parsing ip address " ++ ip)
            (strSplitChar first_col ',') with
        | Except.error e => Except.error e
        | Except.ok new_binds =>
          match rest_cols with
          | [] =>
            parse_config_lines env rest false (bind_addrs ++ new_binds) network_dns_servers ctrs
          | second_col :: _ =>
            match collectParsed env.parse_ip
                (fun ip => "error parsing network dns address " ++ ip)
                (strSplitChar second_col ',') with
            | Except.error e => Except.error e
            | Except.ok new_dns =>
              parse_config_lines env rest false (bind_addrs ++ new_binds)
                (network_dns_servers ++ new_dns) ctrs
    else
      match strSplitChar line ' ' with
      | p0 :: p1 :: p2 :: p3 :: restp =>
        let v4_step : Except AardvarkError (Option (List Nat)) :=
          if p1 ≠ "" then
            (collectParsed env.parse_ip4 (fun _ => "error parsing IP address " ++ p1)
              (strSplitChar p1 ',')).map some
          else Except.ok none
        match v4_step with
        | Except.error e => Except.error e
        | Except.ok v4_addrs =>
          let v6_step : Except AardvarkError (Option (List Nat)) :=
            if p2 ≠ "" then
              (collectParsed env.parse_ip6 (fun _ => "error parsing IP address " ++ p2)
                (strSplitChar p2 ',')).map some
            else Except.ok none
          match v6_step with
          | Except.error e => Except.error e
          | Except.ok v6_addrs =>
            let aliases := (strSplitChar p3 ',').map strToLower
            if aliases.isEmpty then
              Except.error (AardvarkError.message
                ("configuration file line " ++ line ++ " is improperly formatted - no names given"))
            else
              let dns_step : Except AardvarkError (Option (List IpAddr)) :=
                match restp with
                | [p4] =>
                  if p4 ≠ "" then
                    (collectParsed env.parse_ip
                      (fun _ => "error parsing DNS server address " ++ p4)
                      (strSplitChar p4 ',')).map some
                  else Except.ok none
                | _ => Except.ok none
              match dns_step with
              | Except.error e => Except.error e
              | Except.ok dns_servers =>
                parse_config_lines env rest false bind_addrs network_dns_servers
                  (ctrs ++ [{ id := strToLower p0
                              v4 := v4_addrs
                              v6 := v6_addrs
                              aliases
                              dns_servers }])
      | _ =>
        Except.error (AardvarkError.message
          ("configuration file line " ++ line ++ " is improperly formatted - too few entries"))

/-- The outcome of `read_to_string` on one config file. -/
inductive FileRead where
  | content (s : String)
  | ioErr (not_found : Bool)
deriving DecidableEq, Repr

/-- `parse_config` (`src/config/mod.rs`): read the file (an IO failure is the
corresponding error), run the line loop, and require at least one bind
address. -/
def parse_config (env : ConfigEnv) (file : FileRead) : Except AardvarkError ParsedNetworkConfig :=
  match file with
  | FileRead.ioErr nf => Except.error (AardvarkError.ioError nf)
  | FileRead.content content =>
    match parse_config_lines env (strSplitChar content '\n') true [] [] [] with
    | Except.error e => Except.error e
    | Except.ok (bind_addrs, network_dns_servers, ctrs) =>
      if bind_addrs.isEmpty then
        Except.error (AardvarkError.message
          "configuration file does not provide any bind addresses")
      else
        Except.ok { network_bind_ip := bind_addrs
                    container_entry := ctrs
                    network_dnsservers := network_dns_servers }

/-- One entry of the `read_dir` enumeration: either a directory entry with
its file name and read outcome, or a listing error. -/
inductive DirEntryResult where
  | ok (file_name : String) (file : FileRead)
  | listErr (not_found : Bool)
deriving DecidableEq, Repr

/-- The accumulator maps of `parse_configs` (`src/config/mod.rs`). -/
structure ParseState where
  network_membership : List (String × List String)
  container_ips : List (String × List IpAddr)
  reverse : List (String × List (IpAddr × List String))
  network_names : List (String × List (String × List IpAddr))
  listen_ips_4 : List (String × List Nat)
  listen_ips_6 : List (String × List Nat)
  ctr_dns_server : List (IpAddr × Option (List IpAddr))
  network_dns_server : List (String × List IpAddr)
  network_is_internal : List (String × Bool)
deriving DecidableEq, Repr

def initParseState : ParseState :=
  { network_membership := []
    container_ips := []
    reverse := []
    network_names := []
    listen_ips_4 := []
    listen_ips_6 := []
    ctr_dns_server := []
    network_dns_server := []
    network_is_internal := [] }

/-- The loop body shared by the v4 and the v6 address loop of a container
entry (`src/config/mod.rs`): record the reverse entry, record the
container-scoped DNS servers unless the network is internal, and extend
`new_ctr_ips`; `mk` is the address-family constructor. -/
def ctr_ip_step (network_name : String) (internal : Bool) (entry : CtrEntry)
    (mk : Nat → IpAddr) (acc : ParseState × List IpAddr) (ip : Nat) :
    ParseState × List IpAddr :=
  let st := acc.1
  let st :=
    { st with
      reverse := alAdjust st.reverse network_name []
        (fun m => alAdjust m (mk ip) [] (fun names => names ++ entry.aliases)) }
  let st :=
    if !internal then
      { st with ctr_dns_server := alInsert st.ctr_dns_server (mk ip) entry.dns_servers }
    else st
  (st, acc.2 ++ [mk ip])

/-- The per-container-entry body of the `parse_configs` loop
(`src/config/mod.rs`): membership (deduplicated), reverse entries per
address, container-scoped DNS servers (only on non-internal networks),
the per-container IP list, the alias table, and the internal flag. -/
def process_ctr_entry (st : ParseState) (network_name : String) (internal : Bool)
    (entry : CtrEntry) : ParseState :=
  let st :=
    { st with
      network_membership := alAdjust st.network_membership entry.id []
        (fun ctr_networks =>
          if ctr_networks.contains network_name then ctr_networks
          else ctr_networks ++ [network_name]) }
  let v4_res :=
    (entry.v4.getD []).foldl (ctr_ip_step network_name internal entry IpAddr.v4) (st, [])
  let v6_res :=
    (entry.v6.getD []).foldl (ctr_ip_step network_name internal entry IpAddr.v6) v4_res
  let st := v6_res.1
  let new_ctr_ips := v6_res.2
  let st :=
    { st with container_ips := alAdjust st.container_ips entry.id [] (· ++ new_ctr_ips) }
  let st :=
    { st with
      network_names := alAdjust st.network_names network_name []
        (fun network_aliases =>
          entry.aliases.foldl
            (fun na al => alAdjust na al [] (· ++ new_ctr_ips))
            network_aliases) }
  { st with network_is_internal := alInsert st.network_is_internal network_name internal }

/-- The bind-IP partitioning step of the `parse_configs` loop
(`src/config/mod.rs`): a v4 bind address extends the v4 listen plan of the
network, a v6 one the v6 plan. -/
def bind_ip_step (network_name : String) (st : ParseState) (ip : IpAddr) : ParseState :=
  match ip with
  | IpAddr.v4 a =>
    { st with listen_ips_4 := alAdjust st.listen_ips_4 network_name [] (· ++ [a]) }
  | IpAddr.v6 a =>
    { st with listen_ips_6 := alAdjust st.listen_ips_6 network_name [] (· ++ [a]) }

/-- The per-file body of the `parse_configs` loop after a successful parse
(`src/config/mod.rs`): record the network-scoped DNS servers (an internal
network always records the empty list), partition the bind IPs into the v4
and v6 listen plans, and fold in every container entry. -/
def process_network (st : ParseState) (network_name : String) (internal : Bool)
    (parsed_network_config : ParsedNetworkConfig) : ParseState :=
  let st :=
    if !parsed_network_config.network_dnsservers.isEmpty && !internal then
      { st with
        network_dns_server :=
          alInsert st.network_dns_server network_name parsed_network_config.network_dnsservers }
    else st
  let st :=
    if internal then
      { st with network_dns_server := alInsert st.network_dns_server network_name [] }
    else st
  let st := parsed_network_config.network_bind_ip.foldl (bind_ip_step network_name) st
  parsed_network_config.container_entry.foldl
    (fun st entry => process_ctr_entry st network_name internal entry)
    st

/-- One iteration of the directory loop of `parse_configs`
(`src/config/mod.rs`): listing errors and the PID file are skipped; a file
whose read or parse fails is logged and skipped; otherwise the `%int`
suffix is interpreted and the file's contents are folded into the state. -/
def parse_configs_step (env : ConfigEnv) (st : ParseState) (config : DirEntryResult) :
    ParseState :=
  match config with
  | DirEntryResult.listErr _ => st
  | DirEntryResult.ok file_name file =>
    if file_name == AARDVARK_PID_FILE then st
    else
      match parse_config env file with
      | Except.error _ => st
      | Except.ok parsed_network_config =>
        let internal := strEndsWith file_name INTERNAL_SUFFIX
        let network_name :=
          if strEndsWith file_name INTERNAL_SUFFIX then strDropSuffix file_name INTERNAL_SUFFIX
          else file_name
        process_network st network_name internal parsed_network_config

/-- The final loop of `parse_configs` (`src/config/mod.rs`): invert the
per-container IP lists into the IP-to-networks map, failing when a container
id has IPs but no membership entry. -/
def build_ctrs_go (network_membership : List (String × List String)) :
    List (String × List IpAddr) → List (IpAddr × List String) →
    Except AardvarkError (List (IpAddr × List String))
  | [], ctrs => Except.ok ctrs
  | (ctr_id, ips) :: rest, ctrs =>
    match alGet network_membership ctr_id with
    | some s =>
      build_ctrs_go network_membership rest
        (ips.foldl (fun ctrs ip => alAdjust ctrs ip [] (· ++ s)) ctrs)
    | none =>
      Except.error (AardvarkError.message
        ("Container ID " ++ ctr_id ++
          " has an entry in IPs table, but not network membership table"))

/-- `parse_configs` (`src/config/mod.rs`), over the outcome of the directory
enumeration (the up-front directory-metadata check and a `read_dir` failure
return early and are outside this model): fold every entry into the state,
then assemble the backend and the two listen plans. -/
def parse_configs (env : ConfigEnv) (filter_search_domain : String)
    (entries : List DirEntryResult) :
    Except AardvarkError (DNSBackend × List (String × List Nat) × List (String × List Nat)) :=
  let st := entries.foldl (parse_configs_step env) initParseState
  match build_ctrs_go st.network_membership st.container_ips [] with
  | Except.error e => Except.error e
  | Except.ok ctrs =>
    Except.ok
      (DNSBackend.new ctrs st.network_names st.reverse st.ctr_dns_server st.network_dns_server
        st.network_is_internal filter_search_domain,
        st.listen_ips_4, st.listen_ips_6)

/-- Modelled from the spec: `DNS_PORT` is declared in a revision of
`src/dns/coredns.rs` that is not among the sources (only its importer and
tests are); §6 states that upstream queries always target port 53. -/
def DNS_PORT : Nat := 53

/-- A socket endpoint (`std::net::SocketAddr`); V6 carries flow info and a
scope id like `SocketAddrV6::new`. -/
inductive SockAddr where
  | v4 (ip : Nat) (port : Nat)
  | v6 (ip : Nat) (port : Nat) (flowinfo : Nat) (scope_id : Nat)
deriving DecidableEq, Repr

/-- The port of a socket endpoint. -/
def SockAddr.port : SockAddr → Nat
  | SockAddr.v4 _ p => p
  | SockAddr.v6 _ p _ _ => p

/-- Whether an `Except` value is an error. -/
def exceptIsErr {ε α : Type} : Except ε α → Bool
  | Except.error _ => true
  | Except.ok _ => false

/-- Whether an `Except` value is a success. -/
def exceptIsOk {ε α : Type} : Except ε α → Bool
  | Except.error _ => false
  | Except.ok _ => true

/-- Environment for the resolver-file reader: the `std` address parser, the
`u32` scope-id parser, and the OS interface table (`if_nametoindex`). -/
structure ResolvEnv where
  parse_ip : String → Option IpAddr
  parse_u32 : String → Option Nat
  if_nametoindex : String → Option Nat

/-- The `nameserver` detection of `parse_resolv_conf` (`src/server/serve.rs`):
strip everything after the first `#` or `;`, tokenize on whitespace, and when
the first token is `nameserver` return the second token. -/
def resolv_line_nameserver_arg (line : String) : Option String :=
  let line := beforeCommentMark line
  match strSplitWhitespace line with
  | first :: line_parts =>
    if first == "nameserver" then line_parts.head? else none
  | [] => none

/-- The per-token body of `parse_resolv_conf` (`src/server/serve.rs`): split
off an optional `%scope`; a numeric scope is accepted directly, a named one
is resolved through the interface table and failing that is an error; the
remaining literal must parse as an IP; a scope on an IPv4 address is an
error; the accepted endpoint is on `DNS_PORT`. -/
def process_nameserver_token (env : ResolvEnv) (ip_token : String) :
    Except AardvarkError SockAddr :=
  let scope_split : Except AardvarkError (String × Option Nat) :=
    match strSplitOncePercent ip_token with
    | some (ip, scope_name) =>
      match env.parse_u32 scope_name with
      | some id => Except.ok (ip, some id)
      | none =>
        match env.if_nametoindex scope_name with
        | some id => Except.ok (ip, some id)
        | none => Except.error (AardvarkError.message "resolve scope id")
    | none => Except.ok (ip_token, none)
  match scope_split with
  | Except.error e => Except.error e
  | Except.ok (ip, scope) =>
    match env.parse_ip ip with
    | none => Except.error (AardvarkError.message ip)
    | some (IpAddr.v4 a) =>
      if scope.isSome then
        Except.error (AardvarkError.message "scope id not supported for ipv4 address")
      else Except.ok (SockAddr.v4 a DNS_PORT)
    | some (IpAddr.v6 a) => Except.ok (SockAddr.v6 a DNS_PORT 0 (scope.getD 0))

/-- The line loop of `parse_resolv_conf` (`src/server/serve.rs`): accepted
endpoints in file order; the first failing line aborts the whole parse. -/
def parse_resolv_conf_lines (env : ResolvEnv) :
    List String → Except AardvarkError (List SockAddr)
  | [] => Except.ok []
  | line :: rest =>
    match resolv_line_nameserver_arg line with
    | none => parse_resolv_conf_lines env rest
    | some ip_token =>
      match process_nameserver_token env ip_token with
      | Except.error e => Except.error e
      | Except.ok addr => (parse_resolv_conf_lines env rest).map (addr :: ·)

/-- `parse_resolv_conf` (`src/server/serve.rs`): run the line loop on the
newline-split content and truncate the result to the first three entries. -/
def parse_resolv_conf (env : ResolvEnv) (content : String) :
    Except AardvarkError (List SockAddr) :=
  (parse_resolv_conf_lines env (strSplitChar content '\n')).map (fun l => l.take 3)

/-- Boolean membership for association-list keys. -/
def listHas {α : Type} [DecidableEq α] (l : List α) (x : α) : Bool :=
  l.any (fun y => decide (y = x))

/-- The `expected_threads` set of `stop_and_start_threads`
(`src/server/serve.rs`), determinized as a duplicate-free list in first-seen
order. -/
def expected_threads_of {Ip : Type} [DecidableEq Ip] (listen_ips : List (String × List Ip)) :
    List (String × Ip) :=
  listen_ips.foldl
    (fun acc nl =>
      nl.2.foldl
        (fun acc ip => if listHas acc (nl.1, ip) then acc else acc ++ [(nl.1, ip)])
        acc)
    []

/-- `stop_threads` (`src/server/serve.rs`): remove (and await) the handles
named by the filter, or every handle when there is no filter. -/
def stop_threads {Ip H : Type} [DecidableEq Ip]
    (thread_handles : List ((String × Ip) × H)) (filter : Option (List (String × Ip))) :
    List ((String × Ip) × H) :=
  match filter with
  | some to_shut_down => thread_handles.filter (fun kv => !listHas to_shut_down kv.1)
  | none => []

/-- `stop_and_start_threads` (`src/server/serve.rs`): stop every running
identity absent from the expected set, then for every expected identity not
running bind UDP and TCP (a bind failure adds to the aggregate error list
and skips the identity) and register a spawned handle.  Returns the new
registry, the stopped and started identity lists, and the number of
aggregated bind errors. -/
def stop_and_start_threads {Ip H : Type} [DecidableEq Ip]
    (listen_ips : List (String × List Ip)) (thread_handles : List ((String × Ip) × H))
    (bind_udp bind_tcp : String × Ip → Bool) (spawn : String × Ip → H) :
    List ((String × Ip) × H) × List (String × Ip) × List (String × Ip) × Nat :=
  let expected_threads := expected_threads_of listen_ips
  let to_shut_down :=
    (thread_handles.map (·.1)).filter (fun k => !listHas expected_threads k)
  let after_stop := stop_threads thread_handles (some to_shut_down)
  let to_start :=
    expected_threads.filter (fun k => !listHas (after_stop.map (·.1)) k)
  let started :=
    to_start.foldl
      (fun (acc : List ((String × Ip) × H) × Nat) k =>
        if bind_udp k then
          if bind_tcp k then (acc.1 ++ [(k, spawn k)], acc.2)
          else (acc.1, acc.2 + 1)
        else (acc.1, acc.2 + 1))
      (after_stop, 0)
  (started.1, to_shut_down, to_start, started.2)

lemma listHas_iff {α : Type} [DecidableEq α] (l : List α) (x : α) :
    listHas l x = true ↔ x ∈ l := by
  simp [listHas]

/-- Claim C7: if a reload produces a listen plan whose identity set equals
the set of currently running listener identities, the reconcile step stops
no running listener task and starts no new one, and the registry is
unchanged (the statement is generic in the address family, so it covers
both the v4 and the v6 registry). -/
theorem C7_reconcile_identical_plan {Ip H : Type} [DecidableEq Ip]
    (listen_ips : List (String × List Ip)) (thread_handles : List ((String × Ip) × H))
    (bind_udp bind_tcp : String × Ip → Bool) (spawn : String × Ip → H)
    (hsub1 : (expected_threads_of listen_ips).all
      (fun k => listHas (thread_handles.map (·.1)) k) = true)
    (hsub2 : (thread_handles.map (·.1)).all
      (fun k => listHas (expected_threads_of listen_ips) k) = true) :
    stop_and_start_threads listen_ips thread_handles bind_udp bind_tcp spawn
      = (thread_handles, [], [], 0) := by
  have hstop : (thread_handles.map (·.1)).filter
      (fun k => !listHas (expected_threads_of listen_ips) k) = [] := by
    rw [List.filter_eq_nil_iff]
    intro a ha
    have h := List.all_eq_true.mp hsub2 a ha
    simp [h]
  have hafter : stop_threads thread_handles (some []) = thread_handles := by
    unfold stop_threads
    rw [List.filter_eq_self]
    intro a _
    simp [listHas]
  have hstart : (expected_threads_of listen_ips).filter
      (fun k => !listHas (thread_handles.map (·.1)) k) = [] := by
    rw [List.filter_eq_nil_iff]
    intro a ha
    have h := List.all_eq_true.mp hsub1 a ha
    simp [h]
  simp only [stop_and_start_threads]
  rw [hstop, hafter, hstart]
  rfl

/-- Claim C7 witness: a concrete one-listener plan identical to the running
registry reconciles to the unchanged registry with nothing stopped or
started. -/
theorem C7_witness :
    stop_and_start_threads [("net", [1])] [(("net", (1 : Nat)), (0 : Nat))]
      (fun _ => true) (fun _ => true) (fun _ => 0)
      = ([(("net", 1), 0)], [], [], 0) :=
  C7_reconcile_identical_plan [("net", [1])] [(("net", 1), 0)]
    (fun _ => true) (fun _ => true) (fun _ => 0) (by decide) (by decide)

lemma process_nameserver_token_port (env : ResolvEnv) (ip_token : String) (addr : SockAddr)
    (h : process_nameserver_token env ip_token = Except.ok addr) : addr.port = DNS_PORT := by
  cases hs : strSplitOncePercent ip_token with
  | none =>
    cases hip : env.parse_ip ip_token with
    | none => simp [process_nameserver_token, hs, hip] at h
    | some i =>
      cases i with
      | v4 a =>
        simp [process_nameserver_token, hs, hip] at h
        subst h
        rfl
      | v6 a =>
        simp [process_nameserver_token, hs, hip] at h
        subst h
        rfl
  | some pr =>
    obtain ⟨ip, scope_name⟩ := pr
    have hport : ∀ id : Nat, env.parse_ip ip = env.parse_ip ip →
        (match env.parse_ip ip with
          | none => Except.error (AardvarkError.message ip)
          | some (IpAddr.v4 a) =>
            if (Option.some id).isSome = true then
              Except.error (AardvarkError.message "scope id not supported for ipv4 address")
            else Except.ok (SockAddr.v4 a DNS_PORT)
          | some (IpAddr.v6 a) =>
            Except.ok (SockAddr.v6 a DNS_PORT 0 ((Option.some id).getD 0)))
          = Except.ok addr → addr.port = DNS_PORT := by
      intro id _ hmatch
      cases hip : env.parse_ip ip with
      | none => simp [hip] at hmatch
      | some i =>
        cases i with
        | v4 a => simp [hip] at hmatch
        | v6 a =>
          simp [hip] at hmatch
          subst hmatch
          rfl
    cases hu : env.parse_u32 scope_name with
    | some id =>
      refine hport id rfl ?_
      simpa [process_nameserver_token, hs, hu] using h
    | none =>
      cases hn : env.if_nametoindex scope_name with
      | none => simp [process_nameserver_token, hs, hu, hn] at h
      | some id =>
        refine hport id rfl ?_
        simpa [process_nameserver_token, hs, hu, hn] using h

lemma parse_resolv_conf_lines_ports (env : ResolvEnv) :
    ∀ lines full, parse_resolv_conf_lines env lines = Except.ok full →
      ∀ a ∈ full, a.port = DNS_PORT := by
  intro lines
  induction lines with
  | nil =>
    intro full h a ha
    unfold parse_resolv_conf_lines at h
    cases h
    simp at ha
  | cons line rest ih =>
    intro full h a ha
    cases harg : resolv_line_nameserver_arg line with
    | none =>
      simp only [parse_resolv_conf_lines, harg] at h
      exact ih full h a ha
    | some ip_token =>
      simp only [parse_resolv_conf_lines, harg] at h
      cases hproc : process_nameserver_token env ip_token with
      | error e =>
        rw [hproc] at h
        cases h
      | ok addr =>
        rw [hproc] at h
        cases hrest : parse_resolv_conf_lines env rest with
        | error e =>
          rw [hrest] at h
          cases h
        | ok l =>
          rw [hrest] at h
          simp only [Except.map] at h
          cases h
          cases ha with
          | head => exact process_nameserver_token_port env ip_token a hproc
          | tail _ hmem => exact ih l hrest a hmem

/-- Claim C6: for every resolver-file content whose line loop accepts the
entries `full` (in file order), the parsed upstream list is exactly the
first three of those entries, and every accepted entry is a socket endpoint
on port 53. -/
theorem C6_resolv_accepted_order_port_truncation (env : ResolvEnv) (content : String)
    (full : List SockAddr)
    (h : parse_resolv_conf_lines env (strSplitChar content '\n') = Except.ok full) :
    parse_resolv_conf env content = Except.ok (full.take 3)
      ∧ ∀ a ∈ full, a.port = 53 := by
  constructor
  · unfold parse_resolv_conf
    rw [h]
    rfl
  · exact parse_resolv_conf_lines_ports env (strSplitChar content '\n') full h

/-- A concrete resolver environment accepting four IPv4 literals. -/
def resolvEnv4 : ResolvEnv :=
  { parse_ip := fun s =>
      if s = "1.1.1.1" then some (IpAddr.v4 1)
      else if s = "1.1.1.2" then some (IpAddr.v4 2)
      else if s = "1.1.1.3" then some (IpAddr.v4 3)
      else if s = "1.1.1.4" then some (IpAddr.v4 4)
      else none
    parse_u32 := fun _ => none
    if_nametoindex := fun _ => none }

/-- Claim C6 witness: four accepted nameserver lines yield exactly the
first three endpoints. -/
theorem C6_witness :
    parse_resolv_conf resolvEnv4
        "nameserver 1.1.1.1\nnameserver 1.1.1.2\nnameserver 1.1.1.3\nnameserver 1.1.1.4"
      = Except.ok [SockAddr.v4 1 53, SockAddr.v4 2 53, SockAddr.v4 3 53] :=
  (C6_resolv_accepted_order_port_truncation resolvEnv4
    "nameserver 1.1.1.1\nnameserver 1.1.1.2\nnameserver 1.1.1.3\nnameserver 1.1.1.4"
    [SockAddr.v4 1 53, SockAddr.v4 2 53, SockAddr.v4 3 53, SockAddr.v4 4 53] rfl).1

lemma parse_resolv_conf_lines_err_of_line (env : ResolvEnv) :
    ∀ lines line ip_token, line ∈ lines →
      resolv_line_nameserver_arg line = some ip_token →
      exceptIsErr (process_nameserver_token env ip_token) = true →
      exceptIsErr (parse_resolv_conf_lines env lines) = true := by
  intro lines
  induction lines with
  | nil =>
    intro line ip_token hmem
    simp at hmem
  | cons hd tl ih =>
    intro line ip_token hmem harg herr
    cases hmem with
    | head =>
      cases hproc : process_nameserver_token env ip_token with
      | error e => simp [parse_resolv_conf_lines, harg, hproc, exceptIsErr]
      | ok addr =>
        rw [hproc] at herr
        simp [exceptIsErr] at herr
    | tail _ hmem =>
      cases hhd : resolv_line_nameserver_arg hd with
      | none =>
        have := ih line ip_token hmem harg herr
        simpa [parse_resolv_conf_lines, hhd] using this
      | some tok =>
        cases hproc : process_nameserver_token env tok with
        | error e => simp [parse_resolv_conf_lines, hhd, hproc, exceptIsErr]
        | ok addr =>
          have hrest := ih line ip_token hmem harg herr
          cases hrest2 : parse_resolv_conf_lines env tl with
          | error e =>
            simp [parse_resolv_conf_lines, hhd, hproc, hrest2, exceptIsErr, Except.map]
          | ok l =>
            rw [hrest2] at hrest
            simp [exceptIsErr] at hrest

/-- Claim C10: a nameserver line whose token fails — an IP literal that does
not parse (with or without a scope), a scope name that neither parses as a
number nor resolves through the interface table, or a scope suffix on an
IPv4 address — makes `parse_resolv_conf` return an error, so no list (in
particular no previously accepted prefix) is returned. -/
theorem C10_resolv_line_errors_abort :
    (∀ (env : ResolvEnv) (content line ip_token : String),
        line ∈ strSplitChar content '\n' →
        resolv_line_nameserver_arg line = some ip_token →
        exceptIsErr (process_nameserver_token env ip_token) = true →
        exceptIsErr (parse_resolv_conf env content) = true)
    ∧ (∀ (env : ResolvEnv) (ip_token : String),
        strSplitOncePercent ip_token = none → env.parse_ip ip_token = none →
        exceptIsErr (process_nameserver_token env ip_token) = true)
    ∧ (∀ (env : ResolvEnv) (ip_token ip scope_name : String),
        strSplitOncePercent ip_token = some (ip, scope_name) →
        env.parse_u32 scope_name = none → env.if_nametoindex scope_name = none →
        exceptIsErr (process_nameserver_token env ip_token) = true)
    ∧ (∀ (env : ResolvEnv) (ip_token ip scope_name : String) (id : Nat),
        strSplitOncePercent ip_token = some (ip, scope_name) →
        env.parse_u32 scope_name = some id → env.parse_ip ip = none →
        exceptIsErr (process_nameserver_token env ip_token) = true)
    ∧ (∀ (env : ResolvEnv) (ip_token ip scope_name : String) (a : Nat),
        strSplitOncePercent ip_token = some (ip, scope_name) →
        env.parse_ip ip = some (IpAddr.v4 a) →
        exceptIsErr (process_nameserver_token env ip_token) = true) := by
  refine ⟨?_, ?_, ?_, ?_, ?_⟩
  · intro env content line ip_token hmem harg herr
    have hlines := parse_resolv_conf_lines_err_of_line env (strSplitChar content '\n')
      line ip_token hmem harg herr
    unfold parse_resolv_conf
    cases hres : parse_resolv_conf_lines env (strSplitChar content '\n') with
    | error e => simp [exceptIsErr, Except.map]
    | ok l =>
      rw [hres] at hlines
      simp [exceptIsErr] at hlines
  · intro env ip_token hs hip
    simp [process_nameserver_token, hs, hip, exceptIsErr]
  · intro env ip_token ip scope_name hs hu hn
    simp [process_nameserver_token, hs, hu, hn, exceptIsErr]
  · intro env ip_token ip scope_name id hs hu hip
    simp [process_nameserver_token, hs, hu, hip, exceptIsErr]
  · intro env ip_token ip scope_name a hs hip
    cases hu : env.parse_u32 scope_name with
    | some id => simp [process_nameserver_token, hs, hu, hip, exceptIsErr]
    | none =>
      cases hn : env.if_nametoindex scope_name with
      | some id => simp [process_nameserver_token, hs, hu, hn, hip, exceptIsErr]
      | none => simp [process_nameserver_token, hs, hu, hn, exceptIsErr]

/-- A resolver environment in which nothing parses, mirroring the behavior
of the real parsers on the literal `abc`. -/
def resolvEnvNone : ResolvEnv :=
  { parse_ip := fun _ => none
    parse_u32 := fun _ => none
    if_nametoindex := fun _ => none }

/-- Claim C10 witness: the test input `nameserver abc` makes the whole parse
fail. -/
theorem C10_witness : exceptIsErr (parse_resolv_conf resolvEnvNone "nameserver abc") = true :=
  C10_resolv_line_errors_abort.1 resolvEnvNone "nameserver abc" "nameserver abc" "abc"
    (by decide) (by decide) (by decide)

lemma foldl_preserves {σ α β : Type} (f : σ → α → σ) (P : σ → β)
    (h : ∀ s x, P (f s x) = P s) : ∀ (l : List α) (s : σ), P (l.foldl f s) = P s := by
  intro l
  induction l with
  | nil => intro s; rfl
  | cons x xs ih => intro s; rw [List.foldl_cons, ih, h]

lemma alGet_alInsert {α β : Type} [DecidableEq α] (m : List (α × β)) (k : α) (v : β) :
    alGet (alInsert m k v) k = some v := by
  induction m with
  | nil => simp [alInsert, alGet]
  | cons kv rest ih =>
    by_cases hk : kv.1 = k
    · simp [alInsert, alGet, List.find?, hk]
    · by_cases hf : (rest.find? (fun kv => kv.1 = k)).isSome
      · have ih' := ih
        simp [alInsert, List.find?, hk, hf] at ih' ⊢
        simpa [alGet, List.find?, hk] using ih'
      · have ih' := ih
        simp [alInsert, List.find?, hk, hf] at ih' ⊢
        simpa [alGet, List.find?, hk] using ih'

/-- A concrete config environment mirroring the real address parsers on the
literals used in the C3 inputs. -/
def configEnvC3 : ConfigEnv :=
  { parse_ip := fun s => if s = "10.88.0.1" then some (IpAddr.v4 1) else none
    parse_ip4 := fun _ => none
    parse_ip6 := fun _ => none }

/-- A network file whose first line is a valid bind address but whose
container line has only three space-delimited fields — a structural error
inside a file that was read successfully. -/
def badNetworkFile : String := "10.88.0.1\nctr 10.88.0.2"

/-- A minimal well-formed network file. -/
def goodNetworkFile : String := "10.88.0.1"

/-- Claim C3 (counterexample): a structural error inside a file that was
read successfully (a container line with fewer than four fields) does make
`parse_config` fail, yet `parse_configs` does not abort: the directory
parse still succeeds, refuting the claim that such an error aborts the
whole parse. -/
theorem C3_counterexample :
    exceptIsErr (parse_config configEnvC3 (FileRead.content badNetworkFile)) = true
      ∧ exceptIsOk (parse_configs configEnvC3 "podman"
          [DirEntryResult.ok "net1" (FileRead.content badNetworkFile)]) = true := by
  constructor
  · rfl
  · rfl

/-- Claim C3 (amended): a file that disappears or fails to be read is
logged and skipped, and a structural error inside a file that was read
successfully is likewise logged and skipped — `parse_configs` continues
with the remaining files as if the failing file were absent, and does not
abort. -/
theorem C3_amended_per_file_errors_skipped (env : ConfigEnv) (fsd : String)
    (pre post : List DirEntryResult) (file_name : String) (file : FileRead)
    (herr : exceptIsErr (parse_config env file) = true) :
    parse_configs env fsd (pre ++ DirEntryResult.ok file_name file :: post)
      = parse_configs env fsd (pre ++ post) := by
  have hstep : ∀ st, parse_configs_step env st (DirEntryResult.ok file_name file) = st := by
    intro st
    unfold parse_configs_step
    by_cases hp : (file_name == AARDVARK_PID_FILE) = true
    · simp [hp]
    · cases hc : parse_config env file with
      | error e => simp [hp, hc]
      | ok pc =>
        rw [hc] at herr
        simp [exceptIsErr] at herr
  simp only [parse_configs]
  rw [List.foldl_append, List.foldl_append, List.foldl_cons, hstep]

/-- Claim C3 witness: with a good file on either side, the failing file in
the middle is skipped and the parse equals the parse without it. -/
theorem C3_witness :
    parse_configs configEnvC3 "podman"
        ([DirEntryResult.ok "good" (FileRead.content goodNetworkFile)]
          ++ DirEntryResult.ok "net1" (FileRead.content badNetworkFile)
            :: [DirEntryResult.ok "good2" (FileRead.content goodNetworkFile)])
      = parse_configs configEnvC3 "podman"
          ([DirEntryResult.ok "good" (FileRead.content goodNetworkFile)]
            ++ [DirEntryResult.ok "good2" (FileRead.content goodNetworkFile)]) :=
  C3_amended_per_file_errors_skipped configEnvC3 "podman"
    [DirEntryResult.ok "good" (FileRead.content goodNetworkFile)]
    [DirEntryResult.ok "good2" (FileRead.content goodNetworkFile)]
    "net1" (FileRead.content badNetworkFile) (by rfl)

lemma ctr_ip_step_network_dns (network_name : String) (internal : Bool) (entry : CtrEntry)
    (mk : Nat → IpAddr) (acc : ParseState × List IpAddr) (ip : Nat) :
    ((ctr_ip_step network_name internal entry mk acc ip).1).network_dns_server
      = (acc.1).network_dns_server := by
  unfold ctr_ip_step
  by_cases h : internal <;> simp [h]

lemma ctr_ip_step_ctr_dns_internal (network_name : String) (entry : CtrEntry)
    (mk : Nat → IpAddr) (acc : ParseState × List IpAddr) (ip : Nat) :
    ((ctr_ip_step network_name true entry mk acc ip).1).ctr_dns_server
      = (acc.1).ctr_dns_server := by
  unfold ctr_ip_step
  simp

lemma bind_ip_step_network_dns (network_name : String) (st : ParseState) (ip : IpAddr) :
    (bind_ip_step network_name st ip).network_dns_server = st.network_dns_server := by
  cases ip <;> rfl

lemma bind_ip_step_ctr_dns (network_name : String) (st : ParseState) (ip : IpAddr) :
    (bind_ip_step network_name st ip).ctr_dns_server = st.ctr_dns_server := by
  cases ip <;> rfl

lemma process_ctr_entry_network_dns (st : ParseState) (network_name : String)
    (internal : Bool) (entry : CtrEntry) :
    (process_ctr_entry st network_name internal entry).network_dns_server
      = st.network_dns_server := by
  simp only [process_ctr_entry]
  rw [foldl_preserves _ (fun acc => acc.1.network_dns_server)
      (fun s x => ctr_ip_step_network_dns network_name internal entry IpAddr.v6 s x),
    foldl_preserves _ (fun acc => acc.1.network_dns_server)
      (fun s x => ctr_ip_step_network_dns network_name internal entry IpAddr.v4 s x)]

lemma process_ctr_entry_ctr_dns_internal (st : ParseState) (network_name : String)
    (entry : CtrEntry) :
    (process_ctr_entry st network_name true entry).ctr_dns_server = st.ctr_dns_server := by
  simp only [process_ctr_entry]
  rw [foldl_preserves _ (fun acc => acc.1.ctr_dns_server)
      (fun s x => ctr_ip_step_ctr_dns_internal network_name entry IpAddr.v6 s x),
    foldl_preserves _ (fun acc => acc.1.ctr_dns_server)
      (fun s x => ctr_ip_step_ctr_dns_internal network_name entry IpAddr.v4 s x)]

/-- Claim C5: processing a network file whose name carries the internal
suffix records the empty upstream list for the stripped network name in
`network_to_dns` regardless of the resolvers the file specified, and adds
no `ip_to_ctr_dns` entry for any container IP of that network (the
container-scoped DNS map is left exactly as it was). -/
theorem C5_internal_network_upstreams (env : ConfigEnv) (st : ParseState)
    (file_name : String) (file : FileRead) (pc : ParsedNetworkConfig)
    (hint : strEndsWith file_name INTERNAL_SUFFIX = true)
    (hok : parse_config env file = Except.ok pc) :
    alGet (parse_configs_step env st (DirEntryResult.ok file_name file)).network_dns_server
        (strDropSuffix file_name INTERNAL_SUFFIX) = some []
      ∧ (parse_configs_step env st (DirEntryResult.ok file_name file)).ctr_dns_server
        = st.ctr_dns_server := by
  have hpid : (file_name == AARDVARK_PID_FILE) = false := by
    cases hb : (file_name == AARDVARK_PID_FILE) with
    | false => rfl
    | true =>
      have : file_name = AARDVARK_PID_FILE := by
        simpa using hb
      rw [this] at hint
      exact absurd hint (by decide)
  have hstep : parse_configs_step env st (DirEntryResult.ok file_name file)
      = process_network st (strDropSuffix file_name INTERNAL_SUFFIX) true pc := by
    unfold parse_configs_step
    simp [hpid, hok, hint]
  rw [hstep]
  simp only [process_network, Bool.not_true, Bool.and_false, Bool.false_eq_true, if_false,
    if_true]
  constructor
  · rw [foldl_preserves _ (fun s => s.network_dns_server)
        (fun s x => process_ctr_entry_network_dns s _ true x),
      foldl_preserves _ (fun s => s.network_dns_server)
        (fun s x => bind_ip_step_network_dns _ s x)]
    exact alGet_alInsert st.network_dns_server (strDropSuffix file_name INTERNAL_SUFFIX) []
  · rw [foldl_preserves _ (fun s => s.ctr_dns_server)
        (fun s x => process_ctr_entry_ctr_dns_internal s _ x),
      foldl_preserves _ (fun s => s.ctr_dns_server)
        (fun s x => bind_ip_step_ctr_dns _ s x)]

/-- A network file declaring both network-scoped resolvers and a container
with container-scoped resolvers, used as the internal-network input. -/
def internalNetworkFile : String := "10.88.0.1 10.0.2.3\nctr 10.88.0.2  foo 10.0.2.4"

/-- A config environment accepting the literals of `internalNetworkFile`. -/
def configEnvC5 : ConfigEnv :=
  { parse_ip := fun s =>
      if s = "10.88.0.1" then some (IpAddr.v4 1)
      else if s = "10.0.2.3" then some (IpAddr.v4 3)
      else if s = "10.0.2.4" then some (IpAddr.v4 4)
      else none
    parse_ip4 := fun s => if s = "10.88.0.2" then some 2 else none
    parse_ip6 := fun _ => none }

/-- Claim C5 witness: the internal file `net%int`, despite declaring
network- and container-scoped resolvers, records the empty upstream list
for `net` and leaves the container-scoped DNS map empty. -/
theorem C5_witness :
    alGet (parse_configs_step configEnvC5 initParseState
        (DirEntryResult.ok "net%int" (FileRead.content internalNetworkFile))).network_dns_server
        (strDropSuffix "net%int" INTERNAL_SUFFIX) = some []
      ∧ (parse_configs_step configEnvC5 initParseState
          (DirEntryResult.ok "net%int" (FileRead.content internalNetworkFile))).ctr_dns_server
        = initParseState.ctr_dns_server :=
  C5_internal_network_upstreams configEnvC5 initParseState "net%int"
    (FileRead.content internalNetworkFile)
    { network_bind_ip := [IpAddr.v4 1]
      container_entry := [{ id := "ctr"
                            v4 := some [2]
                            v6 := none
                            aliases := ["foo"]
                            dns_servers := some [IpAddr.v4 4] }]
      network_dnsservers := [IpAddr.v4 3] }
    (by decide) (by rfl)

lemma strToLower_append (a b : String) : strToLower (a ++ b) = strToLower a ++ strToLower b := by
  cases a with
  | mk da =>
    cases b with
    | mk db =>
      show String.mk ((da ++ db).map Char.toLower)
        = String.mk (da.map Char.toLower ++ db.map Char.toLower)
      rw [List.map_append]

lemma strToLower_dot : strToLower "." = "." := by decide

lemma strEndsWith_append_dot (s : String) : strEndsWith (s ++ ".") "." = true := by
  cases s with
  | mk d =>
    show List.isSuffixOf ['.'] (d ++ ['.']) = true
    simp [List.isSuffixOf, List.reverse_append, List.isPrefixOf]

lemma strDropRight_append_dot (s : String) : strDropRight (s ++ ".") 1 = s := by
  cases s with
  | mk d =>
    show String.mk ((d ++ ['.']).take ((d ++ ['.']).length - 1)) = String.mk d
    simp

/-- A backend as built by the parser from the default filter search domain
`dns.podman` (the constructor appends the trailing dot), with one container
and one name. -/
def backendC8 : DNSBackend :=
  DNSBackend.new [(IpAddr.v4 1, ["net"])] [("net", [("foo", [IpAddr.v4 5])])] [] [] [] []
    "dns.podman"

/-- Claim C8 (counterexample): with search domain `dns.podman.`, looking up
`foo.dns.podman.` strips the search domain and finds `foo`, while looking
up `foo.dns.podman` (no trailing dot) strips nothing and finds no entry —
so Forward lookup of `x ++ "."` differs from Forward lookup of `x` for
`x = "foo.dns.podman"`. -/
theorem C8_counterexample :
    backendC8.lookup (IpAddr.v4 1) "net" ("foo.dns.podman" ++ ".") = some [IpAddr.v4 5]
      ∧ backendC8.lookup (IpAddr.v4 1) "net" "foo.dns.podman" = none := by
  constructor
  · rfl
  · rfl

/-- Claim C8 (amended): Forward lookup of `x ++ "."` equals Forward lookup
of `x` provided the lowercased `x` does not already end with a dot, does
not end with the search domain, and does not acquire the search domain as a
suffix when the dot is appended. -/
theorem C8_trailing_dot_idempotence (b : DNSBackend) (requester : IpAddr)
    (network_name x : String)
    (h1 : strEndsWith (strToLower x) "." = false)
    (h2 : strEndsWith (strToLower x ++ ".") b.search_domain = false)
    (h3 : strEndsWith (strToLower x) b.search_domain = false) :
    b.lookup requester network_name (x ++ ".") = b.lookup requester network_name x := by
  simp only [DNSBackend.lookup, strToLower_append, strToLower_dot, h1, h2, h3,
    strEndsWith_append_dot, strDropRight_append_dot, Bool.false_eq_true, if_false,
    eq_self_iff_true, if_true]

/-- Claim C8 witness: a name that does not interact with the search domain
satisfies the trailing-dot law on a concrete backend. -/
theorem C8_witness :
    backendC8.lookup (IpAddr.v4 1) "net" ("bar" ++ ".")
      = backendC8.lookup (IpAddr.v4 1) "net" "bar" :=
  C8_trailing_dot_idempotence backendC8 (IpAddr.v4 1) "net" "bar"
    (by decide) (by decide) (by decide)

lemma reply_id (msg : Message) : (reply msg).id = msg.id := by
  simp only [reply]
  split <;> rfl

lemma reply_message_type (msg : Message) : (reply msg).message_type = MessageType.Response := by
  simp only [reply]
  split <;> rfl

lemma reply_rd (msg : Message) : (reply msg).recursion_desired = msg.recursion_desired := by
  simp only [reply]
  split <;> rfl

lemma reply_answers (msg : Message) : (reply msg).answers = msg.answers := by
  simp only [reply]
  split <;> rfl

lemma reply_ra_of_rd (msg : Message) (h : msg.recursion_desired = true) :
    (reply msg).recursion_available = true := by
  simp only [reply]
  cases hra : msg.recursion_available with
  | true => split <;> simp [hra]
  | false => simp [h, hra]

lemma add_answers_id (req : Message) (rt : RecordType) (rn : String) (ips : List IpAddr) :
    (add_answers req rt rn ips).id = req.id := by
  cases rt <;> rfl

lemma add_answers_rd (req : Message) (rt : RecordType) (rn : String) (ips : List IpAddr) :
    (add_answers req rt rn ips).recursion_desired = req.recursion_desired := by
  cases rt <;> rfl

lemma forward_not_mem_ptr_actions (env : NameParseEnv) (b : DNSBackend) (src : IpAddr)
    (name : String) (rt : RecordType) (req r : Message) (ns : List IpAddr) :
    EngineAction.forward r ns ∉ ptr_actions env b src name rt req := by
  intro h
  unfold ptr_actions at h
  by_cases hrt : rt = RecordType.PTR
  · rw [if_pos hrt] at h
    cases hip : env.parse_ip (ptr_lookup_ip_string name) with
    | none => simp only [hip] at h; simp at h
    | some ip =>
      simp only [hip] at h
      cases hrev : b.reverse_lookup src ip with
      | none => simp only [hrev] at h; simp at h
      | some reverse => simp only [hrev] at h; simp at h
  · rw [if_neg hrt] at h; simp at h

/-- Every reply the message-loop body emits is `reply` of the request clone
with NXDOMAIN set, of the request clone with PTR answers appended, or of
the request clone with A/AAAA answers appended. -/
lemma handle_message_reply_inv (env : NameParseEnv) (b : DNSBackend)
    (network_name fsd : String) (no_proxy : Bool) (host : List IpAddr) (src : IpAddr)
    (name : String) (rt : RecordType) (req : Message) (bl : Option (List IpAddr))
    (m : Message)
    (h : EngineAction.reply m
      ∈ handle_message env b network_name fsd no_proxy host src name rt req bl) :
    ∃ msg, m = reply msg
      ∧ (msg = { req with response_code := ResponseCode.NXDomain }
        ∨ (∃ names, msg = { req with answers := req.answers ++ ptr_answers env names })
        ∨ (∃ rn ips, env.from_str_relaxed name = some rn ∧ msg = add_answers req rt rn ips)) := by
  rw [handle_message, List.mem_append] at h
  cases h with
  | inl hptr =>
    unfold ptr_actions at hptr
    by_cases hrt : rt = RecordType.PTR
    · rw [if_pos hrt] at hptr
      cases hip : env.parse_ip (ptr_lookup_ip_string name) with
      | none => simp only [hip] at hptr; simp at hptr
      | some ip =>
        simp only [hip] at hptr
        cases hrev : b.reverse_lookup src ip with
        | none => simp only [hrev] at hptr; simp at hptr
        | some names =>
          simp only [hrev] at hptr
          simp at hptr
          exact ⟨_, hptr, Or.inr (Or.inl ⟨names, rfl⟩)⟩
    · rw [if_neg hrt] at hptr; simp at hptr
  | inr hmain =>
    cases hrn : env.from_str_relaxed name with
    | none =>
      simp only [main_resolution_actions, hrn] at hmain
      simp at hmain
    | some rn =>
      simp only [main_resolution_actions, hrn] at hmain
      cases hres : (resolved_ip_list_of b network_name fsd name bl).isEmpty with
      | false =>
        rw [hres] at hmain
        simp at hmain
        exact ⟨_, hmain, Or.inr (Or.inr ⟨rn, _, rfl, rfl⟩)⟩
      | true =>
        rw [hres] at hmain
        cases hg : (no_proxy || strEndsWith name fsd || strEndsWith name (fsd ++ ".")
            || (countChar name '.' == 1)) with
        | true =>
          rw [hg] at hmain
          simp at hmain
          exact ⟨_, hmain, Or.inl rfl⟩
        | false =>
          rw [hg] at hmain
          simp at hmain

/-- An engine name environment whose `trust_dns` name parsers accept every
input unchanged and whose address parser rejects everything. -/
def nameEnvId : NameParseEnv :=
  { from_ascii := fun s => some s
    from_str_relaxed := fun s => some s
    parse_ip := fun _ => none }

/-- A query message: RD set, RA clear, no answers. -/
def reqQuery : Message :=
  { id := 1
    message_type := MessageType.Query
    recursion_desired := true
    recursion_available := false
    response_code := ResponseCode.NoError
    answers := [] }

/-- A backend whose only known requester `10.0.0.2` (modelled `v4 2`) sits
on the internal network `net`. -/
def backendInternal : DNSBackend :=
  { ip_mappings := [(IpAddr.v4 2, ["net"])]
    name_mappings := []
    reverse_mappings := []
    ctr_dns_server := []
    network_dns_server := []
    network_is_internal := [("net", true)]
    search_domain := "dns.podman." }

/-- Claim C1 (counterexample): the forwarding gate of this engine revision
never consults the backend's internal flag and does suppress forwarding for
single-label names.  A requester that `ctr_is_internal` reports as internal
is forwarded (first two conjuncts), and an external requester's query
`foo.` — one dot, not ending in the search domain, `no_proxy` unset — is
answered NXDOMAIN instead of being forwarded (last two conjuncts). -/
theorem C1_counterexample :
    backendInternal.ctr_is_internal (IpAddr.v4 2) = true
      ∧ handle_message nameEnvId backendInternal "net" "dns.podman" false [] (IpAddr.v4 2)
          "example.com." RecordType.A reqQuery none
        = [EngineAction.forward reqQuery []]
      ∧ backendInternal.ctr_is_internal (IpAddr.v4 99) = false
      ∧ handle_message nameEnvId backendInternal "net" "dns.podman" false [] (IpAddr.v4 99)
          "foo." RecordType.A reqQuery none
        = [EngineAction.reply
            (reply { reqQuery with response_code := ResponseCode.NXDomain })] := by
  refine ⟨rfl, rfl, rfl, rfl⟩

/-- Claim C1 (amended): for a query with no local answer and a record name
that parses, the engine forwards if and only if `no_proxy` is unset, the
name does not end with the filter search domain (with or without an extra
trailing dot), and the name does not contain exactly one dot; the backend's
internal flag plays no role in the decision. -/
theorem C1_amended_forwarding_gate (env : NameParseEnv) (b : DNSBackend)
    (network_name fsd : String) (no_proxy : Bool) (host : List IpAddr) (src : IpAddr)
    (name : String) (rt : RecordType) (req : Message) (bl : Option (List IpAddr))
    (rn : String)
    (hlocal : resolved_ip_list_of b network_name fsd name bl = [])
    (hrn : env.from_str_relaxed name = some rn) :
    (EngineAction.forward req (query_nameservers b host src)
        ∈ handle_message env b network_name fsd no_proxy host src name rt req bl)
      ↔ (no_proxy = false ∧ strEndsWith name fsd = false
          ∧ strEndsWith name (fsd ++ ".") = false ∧ countChar name '.' ≠ 1) := by
  have key : (EngineAction.forward req (query_nameservers b host src)
      ∈ handle_message env b network_name fsd no_proxy host src name rt req bl)
      ↔ (no_proxy || strEndsWith name fsd || strEndsWith name (fsd ++ ".")
          || (countChar name '.' == 1)) = false := by
    rw [handle_message, List.mem_append]
    simp only [main_resolution_actions, hrn, hlocal]
    cases hg : (no_proxy || strEndsWith name fsd || strEndsWith name (fsd ++ ".")
        || (countChar name '.' == 1)) with
    | true => simp [forward_not_mem_ptr_actions]
    | false => simp [forward_not_mem_ptr_actions]
  rw [key]
  simp [Bool.or_eq_false_iff, beq_eq_false_iff_ne, and_assoc]

/-- Claim C1 witness: the gate equivalence instantiated at a concrete
internal requester and the name `example.com.`. -/
theorem C1_witness :
    (EngineAction.forward reqQuery (query_nameservers backendInternal [] (IpAddr.v4 2))
        ∈ handle_message nameEnvId backendInternal "net" "dns.podman" false [] (IpAddr.v4 2)
            "example.com." RecordType.A reqQuery none)
      ↔ (false = false ∧ strEndsWith "example.com." "dns.podman" = false
          ∧ strEndsWith "example.com." ("dns.podman" ++ ".") = false
          ∧ countChar "example.com." '.' ≠ 1) :=
  C1_amended_forwarding_gate nameEnvId backendInternal "net" "dns.podman" false []
    (IpAddr.v4 2) "example.com." RecordType.A reqQuery none "example.com." rfl rfl

/-- A backend with one forward name on `net`. -/
def backendLocalA : DNSBackend :=
  { ip_mappings := [(IpAddr.v4 3, ["net"])]
    name_mappings := [("net", [("foo", [IpAddr.v4 7])])]
    reverse_mappings := []
    ctr_dns_server := []
    network_dns_server := []
    network_is_internal := []
    search_domain := "dns.podman." }

/-- The A answer record the engine synthesizes for `foo ↦ 10.88.0.5`
(modelled `v4 7`). -/
def recC2 : DnsRecord :=
  { name := "foo"
    ttl := 86400
    rr_type := RecordType.A
    dns_class := DNSClass.IN
    rdata := some (RData.a 7) }

/-- The local reply the engine emits for that query. -/
def msgC2 : Message :=
  { id := 1
    message_type := MessageType.Response
    recursion_desired := true
    recursion_available := true
    response_code := ResponseCode.NoError
    answers := [recC2] }

/-- Claim C2 (counterexample): the engine's locally synthesized A answer
carries TTL 86400, not TTL 0 — the reply for `foo` holds exactly one record
with `ttl = 86400`, refuting the claim that every such record carries a TTL
of 0. -/
theorem C2_counterexample :
    handle_message nameEnvId backendLocalA "net" "dns.podman" false [] (IpAddr.v4 3) "foo"
        RecordType.A reqQuery (some [IpAddr.v4 7])
      = [EngineAction.reply msgC2]
      ∧ recC2.ttl ≠ 0 := by
  refine ⟨rfl, by decide⟩

/-- Claim C2 (amended): every answer record the engine adds to a locally
synthesized response — A, AAAA, and PTR alike — carries TTL 86400 and class
IN, and the A/AAAA records among them carry an owner name equal to the
parsed original query name. -/
theorem C2_amended_answer_record_shape (env : NameParseEnv) (b : DNSBackend)
    (network_name fsd : String) (no_proxy : Bool) (host : List IpAddr) (src : IpAddr)
    (name : String) (rt : RecordType) (req : Message) (bl : Option (List IpAddr))
    (record_name : String)
    (hreq : req.answers = [])
    (hrn : env.from_str_relaxed name = some record_name)
    (act : EngineAction)
    (hact : act ∈ handle_message env b network_name fsd no_proxy host src name rt req bl)
    (m : Message) (hm : act = EngineAction.reply m)
    (r : DnsRecord) (hr : r ∈ m.answers) :
    r.ttl = 86400 ∧ r.dns_class = DNSClass.IN
      ∧ ((r.rr_type = RecordType.A ∨ r.rr_type = RecordType.AAAA) → r.name = record_name) := by
  subst hm
  obtain ⟨msg, hm2, hshape⟩ :=
    handle_message_reply_inv env b network_name fsd no_proxy host src name rt req bl m hact
  subst hm2
  rw [reply_answers] at hr
  rcases hshape with hnx | ⟨names, hptr⟩ | ⟨rn, ips, hrn2, hadd⟩
  · subst hnx
    rw [show ({ req with response_code := ResponseCode.NXDomain } : Message).answers
        = req.answers from rfl, hreq] at hr
    simp at hr
  · subst hptr
    rw [show ({ req with answers := req.answers ++ ptr_answers env names } : Message).answers
        = req.answers ++ ptr_answers env names from rfl, hreq] at hr
    rw [List.nil_append] at hr
    simp only [ptr_answers, List.mem_filterMap] at hr
    obtain ⟨entry, hentry, hmap⟩ := hr
    cases hop : env.from_ascii (entry ++ ".") with
    | none => rw [hop] at hmap; simp at hmap
    | some answer =>
      rw [hop] at hmap
      simp at hmap
      subst hmap
      refine ⟨rfl, rfl, ?_⟩
      intro hab
      rcases hab with hab | hab <;> simp at hab
  · rw [hrn] at hrn2
    have hrn_eq : record_name = rn := by
      injection hrn2
    subst hadd
    cases rt with
    | A =>
      simp only [add_answers] at hr
      rw [hreq, List.nil_append, List.mem_filterMap] at hr
      obtain ⟨addr, haddr, hmap⟩ := hr
      cases addr with
      | v4 a =>
        simp at hmap
        subst hmap
        exact ⟨rfl, rfl, fun _ => hrn_eq.symm⟩
      | v6 a => simp at hmap
    | AAAA =>
      simp only [add_answers] at hr
      rw [hreq, List.nil_append, List.mem_filterMap] at hr
      obtain ⟨addr, haddr, hmap⟩ := hr
      cases addr with
      | v6 a =>
        simp at hmap
        subst hmap
        exact ⟨rfl, rfl, fun _ => hrn_eq.symm⟩
      | v4 a => simp at hmap
    | PTR =>
      simp only [add_answers] at hr
      rw [hreq] at hr
      simp at hr
    | OTHER =>
      simp only [add_answers] at hr
      rw [hreq] at hr
      simp at hr

/-- Claim C2 witness: the invariant instantiated at the concrete record of
the `foo` reply. -/
theorem C2_witness :
    recC2.ttl = 86400 ∧ recC2.dns_class = DNSClass.IN
      ∧ ((recC2.rr_type = RecordType.A ∨ recC2.rr_type = RecordType.AAAA)
          → recC2.name = "foo") :=
  C2_amended_answer_record_shape nameEnvId backendLocalA "net" "dns.podman" false []
    (IpAddr.v4 3) "foo" RecordType.A reqQuery (some [IpAddr.v4 7]) "foo" rfl rfl
    (EngineAction.reply msgC2) (by decide) msgC2 rfl recC2 (by decide)

/-- A well-formed upstream response that carries neither RD nor RA. -/
def upstreamNoRd : Message :=
  { id := 99
    message_type := MessageType.Response
    recursion_desired := false
    recursion_available := false
    response_code := ResponseCode.NoError
    answers := [] }

/-- Claim C4 (counterexample): forwarding a request with RD set to an
upstream whose response clears RD yields an emitted reply with
recursion-available still false, refuting the unconditional
recursion-available clause (the transaction id is still rewritten to the
request's). -/
theorem C4_counterexample :
    forward_task_emissions reqQuery [some upstreamNoRd]
      = [{ id := 1
           message_type := MessageType.Response
           recursion_desired := false
           recursion_available := false
           response_code := ResponseCode.NoError
           answers := [] }]
      ∧ reqQuery.recursion_desired = true := by
  refine ⟨rfl, rfl⟩

/-- Claim C4 (amended): every reply the engine emits carries the request's
transaction id and message type Response; recursion-available is set
whenever the request had recursion-desired for locally synthesized replies,
while a forwarded reply (the upstream response with the id rewritten) has
recursion-available set whenever the forwarded response itself carries
recursion-desired. -/
theorem C4_amended_reply_header_invariants :
    (∀ (env : NameParseEnv) (b : DNSBackend) (network_name fsd : String) (no_proxy : Bool)
        (host : List IpAddr) (src : IpAddr) (name : String) (rt : RecordType) (req : Message)
        (bl : Option (List IpAddr)) (m : Message),
        EngineAction.reply m
            ∈ handle_message env b network_name fsd no_proxy host src name rt req bl →
        m.id = req.id ∧ m.message_type = MessageType.Response
          ∧ (req.recursion_desired = true → m.recursion_available = true))
    ∧ (∀ (req : Message) (upstream : List (Option Message)) (m : Message),
        m ∈ forward_task_emissions req upstream →
        m.id = req.id ∧ m.message_type = MessageType.Response
          ∧ (m.recursion_desired = true → m.recursion_available = true)) := by
  constructor
  · intro env b network_name fsd no_proxy host src name rt req bl m hmem
    obtain ⟨msg, hm2, hshape⟩ :=
      handle_message_reply_inv env b network_name fsd no_proxy host src name rt req bl m hmem
    subst hm2
    refine ⟨?_, reply_message_type msg, ?_⟩
    · rw [reply_id]
      rcases hshape with h | ⟨names, h⟩ | ⟨rn, ips, hrn, h⟩ <;> subst h
      · rfl
      · rfl
      · exact add_answers_id req rt rn ips
    · intro hrd
      apply reply_ra_of_rd
      rcases hshape with h | ⟨names, h⟩ | ⟨rn, ips, hrn, h⟩ <;> subst h
      · exact hrd
      · exact hrd
      · rw [add_answers_rd]; exact hrd
  · intro req upstream
    induction upstream with
    | nil =>
      intro m hmem
      simp [forward_task_emissions] at hmem
    | cons u rest ih =>
      intro m hmem
      cases u with
      | none =>
        simp only [forward_task_emissions, forward_dns_req] at hmem
        exact ih m hmem
      | some resp =>
        simp only [forward_task_emissions, forward_dns_req] at hmem
        simp at hmem
        subst hmem
        refine ⟨?_, reply_message_type _, ?_⟩
        · rw [reply_id]
        · intro hrd
          apply reply_ra_of_rd
          rw [reply_rd] at hrd
          exact hrd

/-- A well-formed upstream response that carries RD but not RA. -/
def upstreamRd : Message :=
  { id := 99
    message_type := MessageType.Response
    recursion_desired := true
    recursion_available := false
    response_code := ResponseCode.NoError
    answers := [] }

/-- Claim C4 witness: the forwarded-reply invariant instantiated at a
concrete upstream exchange. -/
theorem C4_witness :
    ({ id := 1
       message_type := MessageType.Response
       recursion_desired := true
       recursion_available := true
       response_code := ResponseCode.NoError
       answers := [] } : Message).id = reqQuery.id
      ∧ ({ id := 1
           message_type := MessageType.Response
           recursion_desired := true
           recursion_available := true
           response_code := ResponseCode.NoError
           answers := [] } : Message).message_type = MessageType.Response
      ∧ (({ id := 1
            message_type := MessageType.Response
            recursion_desired := true
            recursion_available := true
            response_code := ResponseCode.NoError
            answers := [] } : Message).recursion_desired = true
          → ({ id := 1
               message_type := MessageType.Response
               recursion_desired := true
               recursion_available := true
               response_code := ResponseCode.NoError
               answers := [] } : Message).recursion_available = true) :=
  C4_amended_reply_header_invariants.2 reqQuery [some upstreamRd] _ (by decide)

/-- Claim C9: for a PTR query whose reconstructed address parses and
reverse-resolves, the engine emits the synthesized PTR reply and still runs
the resolution-and-forwarding path on the same message — the handler output
is the PTR reply followed by the main-path actions, and the main path is
never empty when the record name parses, so a second reply (a local answer,
an NXDOMAIN, or a forwarded response) follows. -/
theorem C9_ptr_reply_does_not_short_circuit (env : NameParseEnv) (b : DNSBackend)
    (network_name fsd : String) (no_proxy : Bool) (host : List IpAddr) (src : IpAddr)
    (name : String) (req : Message) (bl : Option (List IpAddr))
    (lookup_ip : IpAddr) (reverse : List String)
    (hip : env.parse_ip (ptr_lookup_ip_string name) = some lookup_ip)
    (hrev : b.reverse_lookup src lookup_ip = some reverse) :
    handle_message env b network_name fsd no_proxy host src name RecordType.PTR req bl
      = EngineAction.reply
          (reply { req with answers := req.answers ++ ptr_answers env reverse })
          :: main_resolution_actions env b network_name fsd no_proxy host src name
              RecordType.PTR req bl
      ∧ (∀ rn, env.from_str_relaxed name = some rn →
          main_resolution_actions env b network_name fsd no_proxy host src name
              RecordType.PTR req bl ≠ []) := by
  constructor
  · rw [handle_message]
    have hptr : ptr_actions env b src name RecordType.PTR req
        = [EngineAction.reply
            (reply { req with answers := req.answers ++ ptr_answers env reverse })] := by
      unfold ptr_actions
      rw [if_pos rfl]
      simp only [hip, hrev]
    rw [hptr]
    rfl
  · intro rn hrn
    simp only [main_resolution_actions, hrn]
    split
    · simp
    · split
      · simp
      · simp

/-- The name environment of the C9 witness: names parse as themselves and
the reconstructed `10.88.0.4` parses. -/
def nameEnvPtr : NameParseEnv :=
  { from_ascii := fun s => some s
    from_str_relaxed := fun s => some s
    parse_ip := fun s => if s = "10.88.0.4" then some (IpAddr.v4 4) else none }

/-- A backend with a reverse entry for `10.88.0.4` on `net`. -/
def backendPtr : DNSBackend :=
  { ip_mappings := [(IpAddr.v4 2, ["net"])]
    name_mappings := []
    reverse_mappings := [("net", [(IpAddr.v4 4, ["trustingzhukovsky"])])]
    ctr_dns_server := []
    network_dns_server := []
    network_is_internal := []
    search_domain := "dns.podman." }

/-- Claim C9 witness: the PTR query `4.0.88.10.in-addr.arpa.` is answered
locally and the main path still runs after it. -/
theorem C9_witness :
    handle_message nameEnvPtr backendPtr "net" "dns.podman" false [] (IpAddr.v4 2)
        "4.0.88.10.in-addr.arpa." RecordType.PTR reqQuery none
      = EngineAction.reply
          (reply { reqQuery with
            answers := reqQuery.answers ++ ptr_answers nameEnvPtr ["trustingzhukovsky"] })
          :: main_resolution_actions nameEnvPtr backendPtr "net" "dns.podman" false []
              (IpAddr.v4 2) "4.0.88.10.in-addr.arpa." RecordType.PTR reqQuery none :=
  (C9_ptr_reply_does_not_short_circuit nameEnvPtr backendPtr "net" "dns.podman" false []
    (IpAddr.v4 2) "4.0.88.10.in-addr.arpa." reqQuery none (IpAddr.v4 4) ["trustingzhukovsky"]
    (by decide) (by decide)).1

end Aardvark
